import Mathlib

/-!
Shallow embedding of the core of the `th260` repository
(`th260/ptu_format.py`, `th260/tttr_result.py`, `th260/th260definitions.py`).

Raw records are numpy `uint32` values; they are embedded as `Nat` together
with the arithmetic form of the 32-bit mask/shift operations used in the
source (`r &&& 0x01ffffff = r % 2^25`, `r &&& 0xfe000000 = r / 2^25 % 2^7 * 2^25`,
valid for every natural number).  The `uint32` cumulative sum of numpy
(`np.cumsum(..., dtype='uint32')`) is embedded with an explicit `% 2^32`
at every step.  Fallible Python code (raised exceptions) is embedded as
`Except String`.
-/

set_option maxRecDepth 100000

namespace Th260

/-- The 32-bit wraparound modulus of the numpy `uint32` accumulator. -/
def U32 : Nat := 2 ^ 32

/-- `T2WRAPAROUND_V2 = 0x2000000` from `tttr_result.py`. -/
def T2WRAPAROUND_V2 : Nat := 0x2000000

/-- `T3WRAPAROUND = 0x400` from `tttr_result.py`. -/
def T3WRAPAROUND : Nat := 0x400

/-- The `rtype` string argument of `read_T2_buffer` / `read_T3_buffer`
(`'photon'`, `'marker'`, `'sync'`). -/
inductive RType where
  | photon
  | marker
  | sync
deriving DecidableEq, Repr

/-- `buffer & 0xfe000000`: the special bit together with the 6 channel bits
(`bitmask_header` in `read_T2_buffer` / `read_T3_buffer`).  For a `uint32`
record this equals the arithmetic form below, which is total on `Nat`. -/
def headerBits (r : Nat) : Nat := r / 2 ^ 25 % 2 ^ 7 * 2 ^ 25

/-- `buffer & 0x01ffffff`: the 25-bit T2 timetag field (`bitmask_timetag`). -/
def timetagT2 (r : Nat) : Nat := r % 2 ^ 25

/-- `(buffer & 0x01fffc00) >> 10`: the 15-bit T3 dtime field. -/
def dtimeT3 (r : Nat) : Nat := r / 2 ^ 10 % 2 ^ 15

/-- `buffer & 0x000003ff`: the 10-bit T3 nsync field. -/
def nsyncT3 (r : Nat) : Nat := r % 2 ^ 10

/-- `bit_overflow = 0xfe000000`: header pattern of an overflow record. -/
def bitOverflow : Nat := 0xfe000000

/-- The element-wise product `timetags * mask_overflows` of `read_T2_buffer`:
the T2 overflow payload carried by record `r` (its timetag if it is an
overflow record, `0` otherwise). -/
def contribT2 (r : Nat) : Nat :=
  if headerBits r = bitOverflow then timetagT2 r else 0

/-- The element-wise product `nsync * mask_overflows` of `read_T3_buffer`:
the T3 overflow payload carried by record `r`. -/
def contribT3 (r : Nat) : Nat :=
  if headerBits r = bitOverflow then nsyncT3 r else 0

/-- `np.cumsum(xs, dtype='uint32')` starting from accumulator `acc`:
running sum reduced `% 2^32` at every step. -/
def cumsum32 (acc : Nat) : List Nat → List Nat
  | [] => []
  | x :: xs =>
    let a := (acc + x) % U32
    a :: cumsum32 a xs

/-- numpy boolean-mask selection `xs[mask]` (both arrays have equal length):
keeps, in order, the elements whose mask entry is `true`. -/
def boolSelect {α : Type} : List α → List Bool → List α
  | [], _ => []
  | _, [] => []
  | x :: xs, b :: bs => if b then x :: boolSelect xs bs else boolSelect xs bs

/-- The `bit_selected` header pattern of `read_T2_buffer`.  Python integers
are unbounded and signed, so the result is an `Int`:
* `photon`: `(channel - 1) << 25`;
* `marker`: `0x80000000 + channel << 25`, which by Python operator
  precedence is `(0x80000000 + channel) << 25`;
* `sync`: `0x80000000`. -/
def bitSelectedT2 (channel : Nat) : RType → Int
  | .photon => ((channel : Int) - 1) * 2 ^ 25
  | .marker => ((0x80000000 : Int) + channel) * 2 ^ 25
  | .sync => 0x80000000

/-- `header == bit_selected` for one record: numpy compares the `uint32`
header with the (possibly out-of-`uint32`-range) Python integer by value. -/
def selRecord (bitSelected : Int) (r : Nat) : Bool :=
  decide ((headerBits r : Int) = bitSelected)

/-- `read_T2_buffer(buffer, channel, rtype)` from `ptu_format.py`.
Returns `(n_overflows, timetag, total_overflows)`.  The final
`overflows_counts[-1]` raises `IndexError` on an empty buffer, embedded as
the `none` branch of `getLast?`. -/
def readT2buffer (buffer : List Nat) (channel : Nat) (rtype : RType) :
    Except String (List Nat × List Nat × Nat) :=
  let bitSelected := bitSelectedT2 channel rtype
  let mask := buffer.map (selRecord bitSelected)
  let timetags := buffer.map timetagT2
  let overflowsCounts := cumsum32 0 (buffer.map contribT2)
  match overflowsCounts.getLast? with
  | none => .error "IndexError: index -1 is out of bounds for axis 0 with size 0"
  | some total =>
    .ok (boolSelect overflowsCounts mask, boolSelect timetags mask, total)

/-- The `bit_selected` header pattern of `read_T3_buffer`; there is no
`sync` branch, the final `else` raises `Unknown type`. -/
def bitSelectedT3 (channel : Nat) : RType → Except String Int
  | .photon => .ok (((channel : Int) - 1) * 2 ^ 25)
  | .marker => .ok (((0x80000000 : Int) + channel) * 2 ^ 25)
  | .sync => .error "Unknown type sync"

/-- `read_T3_buffer(buffer, channel, rtype)` from `ptu_format.py`.
Returns `(n_overflows, dtime, nsync, total_overflows)`. -/
def readT3buffer (buffer : List Nat) (channel : Nat) (rtype : RType) :
    Except String (List Nat × List Nat × List Nat × Nat) := do
  let bitSelected ← bitSelectedT3 channel rtype
  let mask := buffer.map (selRecord bitSelected)
  let dtimes := buffer.map dtimeT3
  let nsyncs := buffer.map nsyncT3
  let overflowsCounts := cumsum32 0 (buffer.map contribT3)
  match overflowsCounts.getLast? with
  | none => .error "IndexError: index -1 is out of bounds for axis 0 with size 0"
  | some total =>
    .ok (boolSelect overflowsCounts mask, boolSelect dtimes mask,
         boolSelect nsyncs mask, total)

/-- Decoded single T2 record, the return value of `read_T2_record`. -/
inductive T2Rec where
  | overflow (count : Nat)
  | marker (channel timetag : Nat)
  | sync (timetag : Nat)
  | photon (channel timetag : Nat)
deriving DecidableEq, Repr

/-- Decoded single T3 record, the return value of `read_T3_record`. -/
inductive T3Rec where
  | overflow (count : Nat)
  | marker (channel dtime nsync : Nat)
  | photon (channel dtime nsync : Nat)
deriving DecidableEq, Repr

/-- `read_T2_record(record)` from `ptu_format.py`: splits the 32-bit record
into `special:1, channel:6, timetag:25` (exact for `record < 2^32`, the
`uint32` domain of the source) and classifies it; a special record whose
channel code is in the reserved gap raises `Invalid record.`. -/
def readT2record (record : Nat) : Except String T2Rec :=
  let special := record / 2 ^ 31
  let channel := record / 2 ^ 25 % 2 ^ 6
  let timetag := record % 2 ^ 25
  if special = 1 then
    if channel = 0x3F then .ok (.overflow timetag)
    else if 1 ≤ channel ∧ channel ≤ 15 then .ok (.marker channel timetag)
    else if channel = 0 then .ok (.sync timetag)
    else .error "Invalid record."
  else .ok (.photon (channel + 1) timetag)

/-- `read_T3_record(record)` from `ptu_format.py`: splits the record into
`special:1, channel:6, dtime:15, nsync:10` and classifies it; there is no
sync code, the reserved gap (including channel 0) raises. -/
def readT3record (record : Nat) : Except String T3Rec :=
  let special := record / 2 ^ 31
  let channel := record / 2 ^ 25 % 2 ^ 6
  let dtime := record / 2 ^ 10 % 2 ^ 15
  let nsync := record % 2 ^ 10
  if special = 1 then
    if channel = 0x3F then .ok (.overflow nsync)
    else if 1 ≤ channel ∧ channel ≤ 15 then .ok (.marker channel dtime nsync)
    else .error "Cant read record."
  else .ok (.photon (channel + 1) dtime nsync)

/-! ### `ExtendableTable` and `binnableTable` (`tttr_result.py`) -/

/-- `ExtendableTable` (1-dimensional case, `ndim=None`): a numpy backing
array (`buf`, whose length is the capacity) plus the logical size.  Slots
at indices `≥ size` hold unspecified values; `np.zeros` / `np.empty`
padding is embedded as `0`. -/
structure ExtTable where
  buf : List Nat
  size : Nat
deriving DecidableEq, Repr

/-- `ExtendableTable.__init__`: backing array `np.zeros(0x100)`, size 0. -/
def mkExtTable : ExtTable := ⟨List.replicate 0x100 0, 0⟩

/-- `ExtendableTable._inner_resize(new_size)`: when `new_size >= capacity`,
replace the backing array by a fresh one of length
`2 ** int(np.ceil(np.log2(new_size)))` — the smallest power of two
`≥ new_size`, embedded exactly as `2 ^ Nat.clog 2 new_size` (the source
computes the ceiling of `log2` in floating point; the exact ceiling is its
value on every reachable size) — copying the first `size` elements. -/
def ExtTable.innerResize (t : ExtTable) (newSize : Nat) : ExtTable :=
  if t.buf.length ≤ newSize then
    ⟨t.buf.take t.size ++ List.replicate (2 ^ Nat.clog 2 newSize - t.size) 0, t.size⟩
  else t

/-- `ExtendableTable.add(data)`: resize to fit, then write `data` into the
slots `[size, size + len(data))` and bump the size. -/
def ExtTable.add (t : ExtTable) (data : List Nat) : ExtTable :=
  let newSize := t.size + data.length
  let t' := t.innerResize newSize
  ⟨t'.buf.take t'.size ++ data ++ t'.buf.drop (t'.size + data.length), newSize⟩

/-- `ExtendableTable.remove(nremove)`: shift the slots `[nremove, size)`
down to index 0 in place (`__data[:new_size] = __data[nremove:size]`);
the slots past the new size keep their old values. -/
def ExtTable.remove (t : ExtTable) (nremove : Nat) : ExtTable :=
  let newSize := t.size - nremove
  ⟨(t.buf.drop nremove).take newSize ++ t.buf.drop newSize, newSize⟩

/-- `ExtendableTable.data`: the valid slots `[0, size)`. -/
def ExtTable.data (t : ExtTable) : List Nat := t.buf.take t.size

/-- `np.bincount(xs)` for a list of naturals: a tally of length
`max(xs) + 1` (length 0 for an empty input). -/
def bincount (xs : List Nat) : List Nat :=
  match xs with
  | [] => []
  | _ => (List.range (xs.foldr max 0 + 1)).map (fun i => xs.count i)

/-- The in-place `bin_count[:len(old)] += old` of `binnableTable.bin_count`
in the non-error case `len(bc) ≥ len(old)`: element-wise sum on the common
prefix, remaining entries of `bc` kept. -/
def addCounts (bc old : List Nat) : List Nat :=
  bc.zipWith (· + ·) old ++ bc.drop old.length

/-- `binnableTable`: an `ExtendableTable` plus the incremental binning
state `_bin_factor`, `_bin_read_position`, `_bin_counts`, `_only_bin`. -/
structure BinTable where
  ext : ExtTable
  binFactor : Option Nat
  binReadPos : Nat
  binCounts : List Nat
  onlyBin : Bool
deriving DecidableEq, Repr

/-- `binnableTable.__init__(bin_factor=f, only_bin=b)`. -/
def mkBinTable (binFactor : Option Nat) (onlyBin : Bool) : BinTable :=
  ⟨mkExtTable, binFactor, 0, [], onlyBin⟩

/-- `binnableTable.add`: inherited from `ExtendableTable`. -/
def BinTable.add (t : BinTable) (data : List Nat) : BinTable :=
  { t with ext := t.ext.add data }

/-- `binnableTable.bin_count()`: consumes the elements
`[read_position, size)`, divides by the bin factor, tallies with
`np.bincount` and adds the previous counts in place.  The in-place
`bin_count[:len(old)] += old` raises a numpy broadcast `ValueError`
whenever the new tally is shorter than the previously retained counts;
that reachable failure is embedded as the `.error` branch.  Returns the
counts together with the updated table. -/
def BinTable.binCount (t : BinTable) : Except String (List Nat × BinTable) :=
  match t.binFactor with
  | none => .error "Need to set bin factor."
  | some f =>
    let newpos := t.ext.size
    if newpos = t.binReadPos then .ok (t.binCounts, t)
    else
      let timetags := (t.ext.data.drop t.binReadPos).map (· / f)
      let bc := bincount timetags
      if bc.length < t.binCounts.length then
        .error "ValueError: operands could not be broadcast together"
      else
        let bc' := addCounts bc t.binCounts
        if t.onlyBin then
          .ok (bc', { t with ext := t.ext.remove newpos, binReadPos := 0,
                             binCounts := bc' })
        else
          .ok (bc', { t with binReadPos := newpos, binCounts := bc' })

/-- `binnableTable.set_bin_factor(f)`: refuses in `only_bin` mode,
otherwise resets the binning state. -/
def BinTable.setBinFactor (t : BinTable) (f : Nat) : Except String BinTable :=
  if t.onlyBin then .error "We dont have the raw data"
  else .ok { t with binFactor := some f, binReadPos := 0, binCounts := [] }

/-! ### `T2Result` and `T3Result` (`tttr_result.py`) -/

/-- `T2Result`: channel, timetag table (dtype `int64`; the values reachable
in the claims fit, so they are embedded as `Nat`) and the overflow
accumulator `_n_overflows`, a Python integer. -/
structure T2Result where
  channel : Nat
  timetags : BinTable
  n_overflows : Nat
deriving DecidableEq, Repr

/-- `T2Result.__init__(channel, ...)`: the float computation
`int(1e12 * bin_time / global_resolution)` producing the bin factor is
abstracted to its integer result `binFactor` (`none` when no bin time is
given); `_n_overflows` is initialized to `0`. -/
def mkT2Result (channel : Nat) (binFactor : Option Nat) (onlyBin : Bool) :
    T2Result :=
  ⟨channel, mkBinTable binFactor onlyBin, 0⟩

/-- `T2Result.add_buffer(buffer)`: decode the buffer for this channel as
photons, store `(self._n_overflows + n_overflows) * T2WRAPAROUND_V2 +
timetag` for each match, then add the buffer total to the accumulator. -/
def T2Result.addBuffer (res : T2Result) (buffer : List Nat) :
    Except String T2Result := do
  let (nOverflows, timetag, totalOverflows) ←
    readT2buffer buffer res.channel .photon
  let stored := (nOverflows.zip timetag).map
    (fun p => (res.n_overflows + p.1) * T2WRAPAROUND_V2 + p.2)
  .ok { res with timetags := res.timetags.add stored,
                 n_overflows := res.n_overflows + totalOverflows }

/-- `T3Result`: channel, nsync table, dtime table, and the overflow
accumulator.  `T3Result.__init__` never assigns `self._n_overflows`
(unlike `T2Result.__init__`), so the attribute is absent on a fresh
object: embedded as an `Option` that starts out `none`. -/
structure T3Result where
  channel : Nat
  nsyncs : BinTable
  dtimes : ExtTable
  n_overflows : Option Nat
deriving DecidableEq, Repr

/-- `T3Result.__init__(channel, ...)`: the float-derived bin factor is
abstracted to its integer result; no `_n_overflows` attribute is created. -/
def mkT3Result (channel : Nat) (binFactor : Nat) (onlyBin : Bool) : T3Result :=
  ⟨channel, mkBinTable (some binFactor) onlyBin, mkExtTable, none⟩

/-- `T3Result.add_buffer(buffer)`: decode the buffer, then evaluate
`self._n_overflows + np.asarray(n_overflows)` — an `AttributeError` on a
fresh `T3Result`, embedded as the `none` branch. -/
def T3Result.addBuffer (res : T3Result) (buffer : List Nat) :
    Except String T3Result := do
  let (nOverflows, dtime, nsync, totalOverflows) ←
    readT3buffer buffer res.channel .photon
  match res.n_overflows with
  | none => .error "AttributeError: T3Result object has no attribute _n_overflows"
  | some acc =>
    let stored := (nOverflows.zip nsync).map
      (fun p => (acc + p.1) * T3WRAPAROUND + p.2)
    .ok { res with nsyncs := res.nsyncs.add stored,
                   dtimes := res.dtimes.add dtime,
                   n_overflows := some (acc + totalOverflows) }

/-! ### Tag codec and PTU writer (`ptu_format.py`, `th260definitions.py`) -/

/-- `str.encode()` for the ASCII strings used as tag ids and values
(UTF-8 agrees with the code points on ASCII). -/
def encodeStr (s : String) : List Nat := s.data.map Char.toNat

/-- `tab_string(bstring, length)`: pad with zero bytes up to `length`
(the source raises `ValueError` for a string longer than `length`; no
caller reaches that case). -/
def tabString (b : List Nat) (length : Nat) : List Nat :=
  b ++ List.replicate (length - b.length) 0

/-- `n.to_bytes(len, byteorder='little')` for a non-negative value that
fits (little-endian byte list of the given length). -/
def toLEBytes (n : Nat) : Nat → List Nat
  | 0 => []
  | len + 1 => n % 256 :: toLEBytes (n / 256) len

/-- The `type_code` dictionary of `th260definitions.py`: the tag types the
codec recognizes, with their 4-byte type codes. -/
def typeCode (dtype : String) : Option Nat :=
  [("Empty8", 0xFFFF0008),
   ("Bool8", 0x00000008),
   ("Int8", 0x10000008),
   ("BitSet64", 0x11000008),
   ("Color8", 0x12000008),
   ("Float8", 0x20000008),
   ("TDateTime", 0x21000008),
   ("Float8Array", 0x2001FFFF),
   ("ASCII-String", 0x4001FFFF),
   ("Wide-String", 0x4002FFFF),
   ("BinaryBlob", 0xFFFFFFFF)].lookup dtype

/-- The `tag_types` dictionary of `th260definitions.py`, mapping each tag
id to its tag type. -/
def tagTypesShip : List (String × String) :=
  [("File_GUID", "ASCII-String"),
   ("Measurement_Mode", "Int8"),
   ("Measurement_SubMode", "Int8"),
   ("MeasDesc_GlobalResolution", "Float8"),
   ("MeasDesc_Resolution", "Float8"),
   ("TTResult_SyncRate", "Int8"),
   ("TTResult_NumberOfRecords", "Int8"),
   ("TTResultFormat_TTTRRecType", "Int8"),
   ("TTResultFormat_BitsPerRecord", "Int8"),
   ("CreatorSW_Name", "ASCII-String"),
   ("CreatorSW_Version", "ASCII-String"),
   ("CreatorSW_ContentVersion", "ASCII-String"),
   ("MeasDesc_AcquisitionTime", "Int8"),
   ("File_AssuredContent", "ASCII-String"),
   ("MeasDesc_StopAt", "Int8"),
   ("MeasDesc_StopOnOvfl", "Bool8"),
   ("MeasDesc_Restart", "Bool8"),
   ("TTResult_StopReason", "Int8"),
   ("TTResult_InputRate", "Int8"),
   ("File_Comment", "ASCII-String"),
   ("MeasDesc_BinningFactor", "Int8"),
   ("MeasDesc_Offset", "Int8"),
   ("HWSync_Divider", "Int8"),
   ("HWSync_Offset", "Int8"),
   ("HWInputChan_Offset", "Int8"),
   ("HWSync_CFDZeroCross", "Int8"),
   ("HWSync_CFDLevel", "Int8"),
   ("HWInputChan_CFDZeroCross", "Int8"),
   ("HWInputChan_CFDLevel", "Int8"),
   ("HWSync_TrgEdge", "Int8"),
   ("HWSync_TrgLevel", "Int8"),
   ("HWInpChan_TrgEdge", "Int8"),
   ("HWInpChan_TrgLevel", "Int8"),
   ("Header_End", "Empty8")]

/-- A Python value passed to `write_tag`.  The IEEE-754 encoding performed
by `struct.pack("<d", value)` is floating point and is not modelled:
`Float8` / `Float8Array` values carry their already-encoded 8-byte
little-endian images.  `vBlob` is the exact byte string expected for
`BitSet64` / `Color8` / `TDateTime` / `BinaryBlob`; `vNone` is Python
`None` (used for `Header_End`). -/
inductive TagValue where
  | vInt (i : Int)
  | vStr (s : String)
  | vFloat8 (bytes : List Nat)
  | vFloatArr (elems : List (List Nat))
  | vBlob (bytes : List Nat)
  | vNone
deriving DecidableEq, Repr

/-- The 4 index bytes of a tag: `tag_idx.to_bytes(4, 'little')` for an
indexed tag (`OverflowError` when it does not fit), `FF FF FF FF` for a
plain tag. -/
def tagIdxBytes : Option Nat → Except String (List Nat)
  | some i =>
      if i < 2 ^ 32 then .ok (toLEBytes i 4)
      else .error "OverflowError: int too big to convert"
  | none => .ok (List.replicate 4 0xFF)

/-- `value.to_bytes(8, byteorder='little', signed=True)`. -/
def intToBytes8Signed (i : Int) : Except String (List Nat) :=
  if -(2 ^ 63) ≤ i ∧ i < 2 ^ 63 then .ok (toLEBytes (i.emod (2 ^ 64)).toNat 8)
  else .error "OverflowError: int too big to convert"

/-- Payload bytes after the type code, following the `dtype` branches of
`write_tag`: the 8-byte value field, and for array/string types the
8-byte payload length (rounded up to a multiple of 8; strings count a
null terminator) followed by the zero-padded payload.  A value of the
wrong Python type raises, embedded as a `TypeError`; the final branch is
the `RuntimeError("No such dtype ...")` of the source. -/
def tagValueBytes (dtype : String) (value : TagValue) : Except String (List Nat) :=
  if dtype = "Empty8" then .ok (List.replicate 8 0)
  else if dtype = "Bool8" ∨ dtype = "Int8" then
    match value with
    | .vInt i => intToBytes8Signed i
    | _ => .error "TypeError: an integer is required"
  else if dtype = "Float8" then
    match value with
    | .vFloat8 b => .ok b
    | _ => .error "TypeError: required argument is not a float"
  else if dtype = "BitSet64" ∨ dtype = "Color8" ∨ dtype = "TDateTime" then
    match value with
    | .vBlob b => .ok b
    | _ => .error "TypeError: cant concat to bytes"
  else if dtype = "ASCII-String" ∨ dtype = "Wide-String" then
    match value with
    | .vStr s =>
      let enc := encodeStr s
      let length := enc.length + 1
      let rounded := length + (8 - length % 8) % 8
      .ok (toLEBytes rounded 8 ++ tabString enc rounded)
    | _ => .error "TypeError: value has no attribute encode"
  else if dtype = "Float8Array" then
    match value with
    | .vFloatArr elems =>
      let payload := elems.flatten
      let rounded := payload.length + (8 - payload.length % 8) % 8
      .ok (toLEBytes rounded 8 ++ tabString payload rounded)
    | _ => .error "TypeError: value is not iterable"
  else if dtype = "BinaryBlob" then
    match value with
    | .vBlob b =>
      let rounded := b.length + (8 - b.length % 8) % 8
      .ok (toLEBytes rounded 8 ++ tabString b rounded)
    | _ => .error "TypeError: object has no len"
  else .error ("No such dtype " ++ dtype)

/-- `write_tag(key, value)` from `ptu_format.py`, with the `tag_types`
dictionary it consults (`thdef.tag_types` in the source) passed
explicitly.  A key may carry an index (`(tag_id, tag_idx)` tuple in the
source).  Failure order follows the source: the `tag_types[tag_id]`
lookup (`KeyError`), the index bytes, the `type_code[dtype]` lookup
(`KeyError` — this is where a tag whose type the codec does not recognize
fails, before any value bytes are produced), then the value branches. -/
def writeTag (tagTypes : List (String × String)) (key : String × Option Nat)
    (value : TagValue) : Except String (List Nat) :=
  match tagTypes.lookup key.1 with
  | none => .error ("KeyError: " ++ key.1)
  | some dtype =>
    match tagIdxBytes key.2 with
    | .error e => .error e
    | .ok idxBytes =>
      match typeCode dtype with
      | none => .error ("KeyError: " ++ dtype)
      | some code =>
        match tagValueBytes dtype value with
        | .error e => .error e
        | .ok valueBytes =>
          .ok (tabString (encodeStr key.1) 32 ++ idxBytes ++
               toLEBytes code 4 ++ valueBytes)

/-- `write_ptu(outputfilename, data, tags)` from `ptu_format.py`: the
8-byte magic, the 8-byte version, every tag in order, the `Header_End`
sentinel, then the raw data.  The whole header is assembled before the
file is opened, so any tag failure aborts the write with no bytes
committed; the embedding returns the complete file bytes or the error. -/
def writePtu (tagTypes : List (String × String)) (data : List Nat)
    (tags : List ((String × Option Nat) × TagValue)) :
    Except String (List Nat) :=
  match tags.foldlM
      (fun acc kv => Except.map (fun b => acc ++ b) (writeTag tagTypes kv.1 kv.2))
      (tabString (encodeStr "PQTTTR") 8 ++ tabString (encodeStr "1.1.00") 8) with
  | .error e => .error e
  | .ok header =>
    match writeTag tagTypes ("Header_End", none) .vNone with
    | .error e => .error e
    | .ok endBytes => .ok (header ++ endBytes ++ data)

/-! ### Operation sequences on `ExtendableTable` (for the C7 invariant) -/

/-- A sequence of `ExtendableTable` operations: `add(xs)` or
`remove(n)`. -/
inductive TOp where
  | add (xs : List Nat)
  | remove (n : Nat)

/-- Run one operation on the table. -/
def applyOp (t : ExtTable) : TOp → ExtTable
  | .add xs => t.add xs
  | .remove n => t.remove n

/-- Run a sequence of operations on the table. -/
def applyOps (t : ExtTable) (ops : List TOp) : ExtTable := ops.foldl applyOp t

/-- The logical contents of the table, as a plain list: `add` appends,
`remove` drops from the front. -/
def modelOp (l : List Nat) : TOp → List Nat
  | .add xs => l ++ xs
  | .remove n => l.drop n

/-- The logical contents after a sequence of operations. -/
def modelOps (l : List Nat) (ops : List TOp) : List Nat := ops.foldl modelOp l

/-- A sequence of operations is valid from logical length `n` when every
`remove` discards no more elements than are present (the contract of
`ExtendableTable.remove`). -/
def validOps : Nat → List TOp → Bool
  | _, [] => true
  | n, .add xs :: rest => validOps (n + xs.length) rest
  | n, .remove k :: rest => k ≤ n && validOps (n - k) rest

/-- The `ExtendableTable` data-structure invariant relative to its logical
contents `l`: the valid slots are exactly `l`, and the capacity is a power
of two at least the size. -/
def ExtInv (t : ExtTable) (l : List Nat) : Prop :=
  t.data = l ∧ t.size = l.length ∧ t.size ≤ t.buf.length ∧
  ∃ k, t.buf.length = 2 ^ k

/-! ### Spec-side quantities for the overflow prefix-sum claim (C3) -/

/-- The claim's per-position quantity: for each position `p` of the
buffer, the sum of the overflow payloads of the records strictly before
`p`, as held by the decoder's 32-bit accumulator (reduced `% 2^32`). -/
def strictPriorSums (contrib : Nat → Nat) (buf : List Nat) : List Nat :=
  (List.range buf.length).map
    (fun p => (((buf.take p).map contrib).sum) % U32)

/-! ### Claim theorems -/

/-- C1: the spec claims `add(xs); bin_count(); add(ys); bin_count()` equals
`add(xs + ys); bin_count()` for every pair of timestamp sequences, the
incremental tally being element-wise added onto the retained counts.  The
code is a slip: `bin_count[:len(old)] += old` assumes the new tally is at
least as long as the old counts, and raises a numpy broadcast `ValueError`
when the second chunk's largest bin index is smaller — here `xs = [1]`,
`ys = [0]`, bin factor `1`: the incremental run fails while the single-shot
run returns `[1, 1]`. -/
theorem c1_incremental_binning_breaks_associativity :
    (do
      let r1 ← ((mkBinTable (some 1) false).add [1]).binCount
      let r2 ← (r1.2.add [0]).binCount
      pure r2.1 : Except String (List Nat)) =
      .error "ValueError: operands could not be broadcast together" ∧
    Except.map Prod.fst (((mkBinTable (some 1) false).add [1, 0]).binCount) =
      .ok [1, 1] := ⟨by rfl, by rfl⟩

/-- C4: the spec claims both `T2Result` and `T3Result` initialize the
overflow accumulator to 0 at creation.  `T2Result.__init__` does, but
`T3Result.__init__` never assigns `_n_overflows`, so the first
`add_buffer` on a fresh `T3Result` dies with `AttributeError` instead of
updating the accumulator. -/
theorem c4_t3result_overflow_accumulator_never_initialized :
    (mkT2Result 1 none false).n_overflows = 0 ∧
    (mkT3Result 1 1 false).n_overflows = none ∧
    (mkT3Result 1 1 false).addBuffer [0] =
      .error "AttributeError: T3Result object has no attribute _n_overflows" :=
  ⟨by rfl, by rfl, by rfl⟩

/-- C5: decoding `[0x00000005, 0xFE000003, 0x00000010]` in T2 mode for
channel 1 yields matched timetags 5 and 16 with overflow counts 0 and 3,
total overflow delta 3, and after `T2Result.add_buffer` the stored
absolute timestamps are `5` and `3*0x2000000+16` with the accumulator at
3. -/
theorem c5_concrete_t2_scenario :
    readT2buffer [0x00000005, 0xFE000003, 0x00000010] 1 .photon =
      .ok ([0, 3], [5, 16], 3) ∧
    Except.map (fun r => (r.timetags.ext.data, r.n_overflows))
      ((mkT2Result 1 none false).addBuffer [0x00000005, 0xFE000003, 0x00000010]) =
      .ok ([5, 3 * 0x2000000 + 16], 3) := ⟨by rfl, by rfl⟩

/-- C10: on an empty input buffer both buffer decoders fail (the source
indexes `overflows_counts[-1]` on an empty cumulative-sum array, an
`IndexError`) instead of returning empty match arrays with total 0. -/
theorem c10_empty_buffer_raises (channel : Nat) (rtype : RType) :
    (∃ e, readT2buffer [] channel rtype = .error e) ∧
    (∃ e, readT3buffer [] channel rtype = .error e) := by
  refine ⟨⟨_, rfl⟩, ?_⟩
  cases rtype <;> exact ⟨_, rfl⟩

/-- C10 witness: the empty buffer, queried for photons on channel 1. -/
theorem c10_empty_buffer_raises_witness :
    (∃ e, readT2buffer [] 1 .photon = .error e) ∧
    (∃ e, readT3buffer [] 1 .photon = .error e) :=
  c10_empty_buffer_raises 1 .photon

/-- C2 counterexample: the claim says a buffer containing a record with
`special=1` and channel in the reserved gap (here channel 20, record
`0xA8000000`) fails to decode; in fact both buffer decoders return
normally, silently dropping the record. -/
theorem c2_buffer_decoders_accept_gap_record :
    readT2buffer [0xA8000000] 1 .photon = .ok ([], [], 0) ∧
    readT3buffer [0xA8000000] 1 .photon = .ok ([], [], [], 0) := ⟨by rfl, by rfl⟩

/-- C2 (amended): only the scalar record decoders reject reserved-gap
records: for every 32-bit record with `special=1` and channel strictly
between 16 and 0x3E, `read_T2_record` and `read_T3_record` raise a
malformed-record error; the buffer decoders silently skip such records. -/
theorem c2_record_decoders_reject_reserved_gap (r : Nat) (h32 : r < 2 ^ 32)
    (hs : r / 2 ^ 31 = 1) (hlo : 16 < r / 2 ^ 25 % 2 ^ 6)
    (hhi : r / 2 ^ 25 % 2 ^ 6 < 0x3E) :
    readT2record r = .error "Invalid record." ∧
    readT3record r = .error "Cant read record." := by
  norm_num at hs hlo hhi
  have h63 : ¬(r / 33554432 % 64 = 63) := by omega
  have h15 : ¬(1 ≤ r / 33554432 % 64 ∧ r / 33554432 % 64 ≤ 15) := by omega
  have h0 : ¬(r / 33554432 % 64 = 0) := by omega
  refine ⟨?_, ?_⟩ <;> simp [readT2record, readT3record, hs, h63, h15, h0]

/-- C2 witness: the reserved-gap record `0xA8000000` (channel 20). -/
theorem c2_record_decoders_reject_reserved_gap_witness :
    (0xA8000000 : Nat) < 2 ^ 32 ∧ (0xA8000000 : Nat) / 2 ^ 31 = 1 ∧
    16 < (0xA8000000 : Nat) / 2 ^ 25 % 2 ^ 6 ∧
    (0xA8000000 : Nat) / 2 ^ 25 % 2 ^ 6 < 0x3E ∧
    readT2record 0xA8000000 = .error "Invalid record." ∧
    readT3record 0xA8000000 = .error "Cant read record." :=
  ⟨by decide, by decide, by decide, by decide,
   c2_record_decoders_reject_reserved_gap 0xA8000000
     (by decide) (by decide) (by decide) (by decide)⟩

/-- The marker selection pattern `(0x80000000 + channel) << 25` is at least
`2^56`, while a record header has at most 32 bits: no record ever matches. -/
lemma selRecord_marker_false (m r : Nat) :
    selRecord (((0x80000000 : Int) + m) * 2 ^ 25) r = false := by
  simp only [selRecord, decide_eq_false_iff_not, headerBits]
  intro h
  have h1 : r / 2 ^ 25 % 2 ^ 7 < 2 ^ 7 := Nat.mod_lt _ (by norm_num)
  push_cast at h
  norm_num at h h1
  omega

/-- Selecting with an everywhere-false record predicate yields nothing. -/
lemma boolSelect_map_false {α : Type} (f : Nat → Bool) (hf : ∀ r, f r = false) :
    ∀ (xs : List α) (l : List Nat), boolSelect xs (l.map f) = [] := by
  intro xs l
  induction l generalizing xs with
  | nil => cases xs <;> rfl
  | cons b t ih => cases xs with
    | nil => rfl
    | cons x xs' => simp [boolSelect, hf b, ih]

/-- C6: the spec claims decoding with kind `marker` and channel `m`
selects exactly the records with `special=1` and channel field `m`.  The
code computes `bit_selected = 0x80000000 + channel << 25`, which by Python
operator precedence is `(0x80000000 + channel) << 25 ≥ 2^56` — it can
never equal a 32-bit record header, so marker queries select nothing at
all, in both T2 and T3 modes. -/
theorem c6_marker_selection_selects_nothing (buf2 buf3 : List Nat)
    (m2 m3 : Nat) (out2 : List Nat × List Nat × Nat)
    (out3 : List Nat × List Nat × List Nat × Nat)
    (h2 : readT2buffer buf2 m2 .marker = .ok out2)
    (h3 : readT3buffer buf3 m3 .marker = .ok out3) :
    out2.1 = [] ∧ out2.2.1 = [] ∧
    out3.1 = [] ∧ out3.2.1 = [] ∧ out3.2.2.1 = [] := by
  have e2 : ∀ xs : List Nat,
      boolSelect xs (buf2.map (selRecord (bitSelectedT2 m2 .marker))) = [] :=
    fun xs => boolSelect_map_false _ (selRecord_marker_false m2) xs buf2
  have e3 : ∀ xs : List Nat,
      boolSelect xs (buf3.map (selRecord (((0x80000000 : Int) + m3) * 2 ^ 25))) = [] :=
    fun xs => boolSelect_map_false _ (selRecord_marker_false m3) xs buf3
  simp only [readT2buffer] at h2
  simp only [readT3buffer, bitSelectedT3, bind, Except.bind] at h3
  split at h2
  · exact absurd h2 (by simp)
  · split at h3
    · exact absurd h3 (by simp)
    · simp only [Except.ok.injEq] at h2 h3
      subst h2; subst h3
      exact ⟨e2 _, e2 _, e3 _, e3 _, e3 _⟩

/-- C6 witness: a buffer holding the marker record `0x82000005`
(`special=1`, channel 1, timetag 5) queried for marker channel 1 still
returns no matches. -/
theorem c6_marker_selection_selects_nothing_witness :
    readT2buffer [0x82000005] 1 .marker = .ok ([], [], 0) ∧
    readT3buffer [0x82000005] 1 .marker = .ok ([], [], [], 0) ∧
    (([], [], 0) : List Nat × List Nat × Nat).1 = [] :=
  ⟨by rfl, by rfl,
   (c6_marker_selection_selects_nothing [0x82000005] [0x82000005] 1 1
     ([], [], 0) ([], [], [], 0) (by rfl) (by rfl)).1⟩

/-! ### C7: the `ExtendableTable` invariant -/

/-- `_inner_resize` never changes the logical size. -/
lemma innerResize_size (t : ExtTable) (ns : Nat) :
    (t.innerResize ns).size = t.size := by
  unfold ExtTable.innerResize; split <;> rfl

/-- Unfolded form of `ExtTable.add`. -/
lemma add_def (t : ExtTable) (xs : List Nat) :
    t.add xs =
      ⟨(t.innerResize (t.size + xs.length)).buf.take t.size ++ xs ++
        (t.innerResize (t.size + xs.length)).buf.drop (t.size + xs.length),
       t.size + xs.length⟩ := by
  simp [ExtTable.add, innerResize_size]

/-- Taking the new logical size from a backing buffer after writing `xs`
at position `s` recovers the old valid prefix followed by `xs`. -/
lemma take_write_data (B : List Nat) (s : Nat) (xs l : List Nat)
    (hB : B.take s = l) (hBs : s ≤ B.length) :
    (B.take s ++ xs ++ B.drop (s + xs.length)).take (s + xs.length) =
      l ++ xs := by
  rw [List.take_left' (by rw [List.length_append, List.length_take]; omega), hB]

/-- Length of a backing buffer after writing `xs` at position `s`. -/
lemma take_write_len (B : List Nat) (s : Nat) (xs : List Nat)
    (hBs : s ≤ B.length) :
    (B.take s ++ xs ++ B.drop (s + xs.length)).length =
      max B.length (s + xs.length) := by
  simp only [List.length_append, List.length_take, List.length_drop]
  omega

/-- `add` preserves the invariant, appending to the logical contents. -/
lemma ExtInv.add {t : ExtTable} {l : List Nat} (h : ExtInv t l)
    (xs : List Nat) : ExtInv (t.add xs) (l ++ xs) := by
  obtain ⟨hdata, hsize, hle, k, hcap⟩ := h
  have htake : t.buf.take t.size = l := hdata
  have hlen_take : (t.buf.take t.size).length = t.size := by
    rw [List.length_take]; omega
  rw [add_def]
  by_cases hres : t.buf.length ≤ t.size + xs.length
  · -- resize branch: fresh backing array of length `2 ^ clog 2 newSize`
    have hcap' : t.size + xs.length ≤ 2 ^ Nat.clog 2 (t.size + xs.length) :=
      Nat.le_pow_clog (by norm_num) _
    have hrw : t.innerResize (t.size + xs.length) =
        ⟨t.buf.take t.size ++
          List.replicate (2 ^ Nat.clog 2 (t.size + xs.length) - t.size) 0,
         t.size⟩ := by
      unfold ExtTable.innerResize
      rw [if_pos hres]
    rw [hrw]
    have hA : (t.buf.take t.size ++
        List.replicate (2 ^ Nat.clog 2 (t.size + xs.length) - t.size) 0).take
          t.size = l := by
      rw [List.take_left' hlen_take, htake]
    have hRlen : (t.buf.take t.size ++
        List.replicate (2 ^ Nat.clog 2 (t.size + xs.length) - t.size) 0).length =
        2 ^ Nat.clog 2 (t.size + xs.length) := by
      rw [List.length_append, List.length_replicate, hlen_take]; omega
    have hBs : t.size ≤ (t.buf.take t.size ++
        List.replicate (2 ^ Nat.clog 2 (t.size + xs.length) - t.size) 0).length := by
      rw [hRlen]; omega
    refine ⟨?_, ?_, ?_, ⟨Nat.clog 2 (t.size + xs.length), ?_⟩⟩ <;>
      dsimp only [ExtTable.data]
    · exact take_write_data _ _ _ _ hA hBs
    · simp [hsize]
    · rw [take_write_len _ _ _ hBs, hRlen]
      omega
    · rw [take_write_len _ _ _ hBs, hRlen]
      omega
  · -- no resize: the backing array is unchanged
    have hrw : t.innerResize (t.size + xs.length) = t := by
      unfold ExtTable.innerResize
      rw [if_neg hres]
    rw [hrw]
    refine ⟨?_, ?_, ?_, ⟨k, ?_⟩⟩ <;> dsimp only [ExtTable.data]
    · exact take_write_data _ _ _ _ htake hle
    · simp [hsize]
    · rw [take_write_len _ _ _ hle]
      omega
    · rw [take_write_len _ _ _ hle, hcap]
      omega

/-- `remove` preserves the invariant, dropping from the front. -/
lemma ExtInv.remove {t : ExtTable} {l : List Nat} (h : ExtInv t l)
    (n : Nat) (hn : n ≤ l.length) : ExtInv (t.remove n) (l.drop n) := by
  obtain ⟨hdata, hsize, hle, k, hcap⟩ := h
  have hx : (t.buf.drop n).take (t.size - n) = l.drop n := by
    rw [← hdata]
    show (t.buf.drop n).take (t.size - n) = (t.buf.take t.size).drop n
    rw [List.drop_take]
  have hxlen : ((t.buf.drop n).take (t.size - n)).length = t.size - n := by
    rw [List.length_take, List.length_drop]; omega
  refine ⟨?_, ?_, ?_, ⟨k, ?_⟩⟩ <;>
    dsimp only [ExtTable.remove, ExtTable.data]
  · rw [List.take_left' hxlen, hx]
  · simp [hsize]
  · rw [List.length_append, hxlen, List.length_drop]
    omega
  · rw [List.length_append, hxlen, List.length_drop, hcap]
    omega

/-- A valid operation sequence preserves the invariant. -/
lemma ExtInv.applyOps : ∀ (ops : List TOp) (t : ExtTable) (l : List Nat),
    ExtInv t l → validOps l.length ops = true →
    ExtInv (applyOps t ops) (modelOps l ops)
  | [], _, _, h, _ => h
  | .add xs :: rest, t, l, h, hv => by
    have := ExtInv.applyOps rest (t.add xs) (l ++ xs) (h.add xs)
      (by simpa [validOps] using hv)
    simpa [applyOps, modelOps, applyOp, modelOp] using this
  | .remove n :: rest, t, l, h, hv => by
    simp only [validOps, Bool.and_eq_true, decide_eq_true_eq] at hv
    have := ExtInv.applyOps rest (t.remove n) (l.drop n)
      (h.remove n hv.1) (by simpa [List.length_drop] using hv.2)
    simpa [applyOps, modelOps, applyOp, modelOp] using this

/-- C7: for every valid sequence of `add`/`remove` operations on a fresh
`ExtendableTable`, the capacity is a power of two, the capacity is at
least the size, and the valid slots `[0, size)` returned by `data` are
exactly the logical contents (appends minus front-removals). -/
theorem c7_extendable_table_invariant (ops : List TOp)
    (h : validOps 0 ops = true) :
    (applyOps mkExtTable ops).data = modelOps [] ops ∧
    (applyOps mkExtTable ops).size = (modelOps [] ops).length ∧
    (applyOps mkExtTable ops).size ≤ (applyOps mkExtTable ops).buf.length ∧
    ∃ k, (applyOps mkExtTable ops).buf.length = 2 ^ k := by
  have init : ExtInv mkExtTable [] :=
    ⟨rfl, rfl, by simp [mkExtTable], ⟨8, by simp [mkExtTable]⟩⟩
  exact ExtInv.applyOps ops mkExtTable [] init h

/-- C7 witness: the sequence `add [1,2,3]; remove 1; add [4]`. -/
theorem c7_extendable_table_invariant_witness :
    validOps 0 [TOp.add [1, 2, 3], TOp.remove 1, TOp.add [4]] = true ∧
    ((applyOps mkExtTable [TOp.add [1, 2, 3], TOp.remove 1, TOp.add [4]]).data =
      modelOps [] [TOp.add [1, 2, 3], TOp.remove 1, TOp.add [4]] ∧
     (applyOps mkExtTable [TOp.add [1, 2, 3], TOp.remove 1, TOp.add [4]]).size =
      (modelOps [] [TOp.add [1, 2, 3], TOp.remove 1, TOp.add [4]]).length ∧
     (applyOps mkExtTable [TOp.add [1, 2, 3], TOp.remove 1, TOp.add [4]]).size ≤
      (applyOps mkExtTable [TOp.add [1, 2, 3], TOp.remove 1, TOp.add [4]]).buf.length ∧
     ∃ k, (applyOps mkExtTable
        [TOp.add [1, 2, 3], TOp.remove 1, TOp.add [4]]).buf.length = 2 ^ k) :=
  ⟨by decide, c7_extendable_table_invariant _ (by decide)⟩

/-- C9 counterexample: the claim says writing the tag with id `"Int8Tag"`
and value 42 produces the Int8 byte layout; in fact `write_tag` derives
the type from the `tag_types` table, which has no entry `"Int8Tag"`, so
the write dies with a `KeyError` and produces no bytes. -/
theorem c9_int8tag_not_in_tag_table :
    writeTag tagTypesShip ("Int8Tag", none) (.vInt 42) =
      .error "KeyError: Int8Tag" := by rfl

/-- C9 (amended): the id `"Int8Tag"` is not in the shipped tag table, so
writing it fails; for a tag table that does map `"Int8Tag"` to type
`Int8`, writing value 42 produces exactly the claimed bytes: the id
zero-padded to 32 bytes, the 4-byte `0xFFFFFFFF` index, the Int8 type
code `0x10000008` little-endian, then 42 as an 8-byte little-endian
signed integer. -/
theorem c9_int8_tag_byte_layout :
    writeTag [("Int8Tag", "Int8")] ("Int8Tag", none) (.vInt 42) =
      .ok (tabString (encodeStr "Int8Tag") 32 ++ [0xFF, 0xFF, 0xFF, 0xFF] ++
           [0x08, 0x00, 0x00, 0x10] ++ [42, 0, 0, 0, 0, 0, 0, 0]) := by rfl

/-! ### C8: an unrecognized tag type aborts the write -/

/-- If a tag's id resolves to a type with no entry in `type_code`,
`write_tag` fails (with the `KeyError` of the `type_code[dtype]` lookup,
or earlier on a bad index) and returns no bytes. -/
lemma writeTag_unknown_dtype (tt : List (String × String))
    (key : String × Option Nat) (v : TagValue) (dtype : String)
    (hl : tt.lookup key.1 = some dtype) (hc : typeCode dtype = none) :
    ∃ e, writeTag tt key v = .error e := by
  rcases h : tagIdxBytes key.2 with e | b
  · exact ⟨e, by simp only [writeTag, hl, h]⟩
  · exact ⟨"KeyError: " ++ dtype, by simp only [writeTag, hl, h, hc]⟩

/-- If any tag of the list fails to serialize, the tag-folding loop of
`write_ptu` fails. -/
lemma foldTags_error (tt : List (String × String)) :
    ∀ (tags : List ((String × Option Nat) × TagValue)) (init : List Nat)
      (kv : (String × Option Nat) × TagValue), kv ∈ tags →
      (∃ e, writeTag tt kv.1 kv.2 = .error e) →
      ∃ e, tags.foldlM
        (fun acc kv => Except.map (fun b => acc ++ b) (writeTag tt kv.1 kv.2))
        init = .error e
  | [], _, kv, hmem, _ => absurd hmem (by simp)
  | hd :: tl, init, kv, hmem, he => by
    rcases h : writeTag tt hd.1 hd.2 with e | b
    · exact ⟨e, by simp only [List.foldlM_cons]; rw [h]; rfl⟩
    · rcases List.mem_cons.mp hmem with rfl | hmem'
      · obtain ⟨e, he⟩ := he
        rw [h] at he
        cases he
      · obtain ⟨e, h2⟩ := foldTags_error tt tl (init ++ b) kv hmem' he
        exact ⟨e, by simp only [List.foldlM_cons]; rw [h]; exact h2⟩

/-- C8: if any tag passed to the PTU writer resolves (through the tag-type
table the codec consults, `thdef.tag_types` in the source) to a type the
codec does not recognize — no entry in `type_code` — then serializing that
tag fails with an error, and `write_ptu` on any tag list containing it
fails before anything is written: the header is assembled in memory before
the output file is even opened, so no bytes (in particular no partial tag
record) are committed. -/
theorem c8_unknown_tag_type_aborts_write (tt : List (String × String))
    (tags : List ((String × Option Nat) × TagValue)) (data : List Nat)
    (key : String × Option Nat) (v : TagValue) (dtype : String)
    (hmem : (key, v) ∈ tags) (hl : tt.lookup key.1 = some dtype)
    (hc : typeCode dtype = none) :
    (∃ e, writeTag tt key v = .error e) ∧
    ∃ e, writePtu tt data tags = .error e := by
  have h1 := writeTag_unknown_dtype tt key v dtype hl hc
  obtain ⟨e, hfold⟩ := foldTags_error tt tags
    (tabString (encodeStr "PQTTTR") 8 ++ tabString (encodeStr "1.1.00") 8)
    (key, v) hmem h1
  exact ⟨h1, ⟨e, by simp only [writePtu, hfold]⟩⟩

/-- C8 witness: a tag table mapping id `"X"` to the unknown type
`"Weird8"`. -/
theorem c8_unknown_tag_type_aborts_write_witness :
    ((("X", none), TagValue.vInt 0) :
      (String × Option Nat) × TagValue) ∈ [(((("X" : String), none)), TagValue.vInt 0)] ∧
    [("X", "Weird8")].lookup "X" = some "Weird8" ∧
    typeCode "Weird8" = none ∧
    ((∃ e, writeTag [("X", "Weird8")] ("X", none) (.vInt 0) = .error e) ∧
     ∃ e, writePtu [("X", "Weird8")] [] [(("X", none), .vInt 0)] = .error e) :=
  ⟨by simp, by rfl, by rfl,
   c8_unknown_tag_type_aborts_write [("X", "Weird8")]
     [(("X", none), .vInt 0)] [] ("X", none) (.vInt 0) "Weird8"
     (by simp) (by rfl) (by rfl)⟩

/-! ### C3: overflow counts are (mod 2^32) prefix sums -/

/-- The last element of the `uint32` cumulative sum is the total, mod
`2^32` (cons form). -/
lemma cumsum32_getLast_cons :
    ∀ (xs : List Nat) (a x : Nat),
      (cumsum32 a (x :: xs)).getLast? = some ((a + (x :: xs).sum) % U32)
  | [], a, x => by simp [cumsum32]
  | y :: ys, a, x => by
    have ih := cumsum32_getLast_cons ys ((a + x) % U32) y
    rw [show cumsum32 a (x :: y :: ys) =
          ((a + x) % U32) :: cumsum32 ((a + x) % U32) (y :: ys) from rfl]
    rw [show cumsum32 ((a + x) % U32) (y :: ys) =
          ((((a + x) % U32) + y) % U32) ::
            cumsum32 ((((a + x) % U32) + y) % U32) ys from rfl] at ih ⊢
    rw [List.getLast?_cons_cons, ih]
    simp [List.sum_cons, Nat.mod_add_mod, Nat.add_assoc]

/-- The last element of the `uint32` cumulative sum is the total, mod
`2^32`. -/
lemma cumsum32_getLast (xs : List Nat) (a : Nat) (h : xs ≠ []) :
    (cumsum32 a xs).getLast? = some ((a + xs.sum) % U32) := by
  obtain ⟨x, xs', rfl⟩ := List.exists_cons_of_ne_nil h
  exact cumsum32_getLast_cons xs' a x

/-- Selecting from the inclusive `uint32` cumulative sums with a mask that
only fires on zero-contribution records equals selecting the strictly-prior
(mod `2^32`) sums: a selected record contributes nothing of its own. -/
lemma boolSelect_strict (contrib : Nat → Nat) (sel : Nat → Bool) :
    ∀ (l : List Nat) (a : Nat),
      (∀ r ∈ l, sel r = true → contrib r = 0) →
      boolSelect (cumsum32 a (l.map contrib)) (l.map sel) =
      boolSelect ((List.range l.length).map
        (fun p => (a + ((l.take p).map contrib).sum) % U32)) (l.map sel)
  | [], _, _ => rfl
  | x :: xs, a, h => by
    have ih := boolSelect_strict contrib sel xs ((a + contrib x) % U32)
      (fun r hr hs => h r (by simp [hr]) hs)
    have rhs_eq : (List.range (x :: xs).length).map
        (fun p => (a + (((x :: xs).take p).map contrib).sum) % U32) =
        (a % U32) :: (List.range xs.length).map
          (fun p => ((a + contrib x) + ((xs.take p).map contrib).sum) % U32) := by
      rw [List.length_cons, List.range_succ_eq_map, List.map_cons,
        List.map_map]
      refine congrArg₂ List.cons (by simp) (List.map_congr_left ?_)
      intro p _
      simp only [Function.comp_apply, Nat.succ_eq_add_one,
        List.take_succ_cons, List.map_cons, List.sum_cons]
      rw [← Nat.add_assoc]
    rw [show cumsum32 a ((x :: xs).map contrib) =
          ((a + contrib x) % U32) ::
            cumsum32 ((a + contrib x) % U32) (xs.map contrib) from rfl,
      rhs_eq, List.map_cons]
    cases hsel : sel x with
    | false =>
      simp only [boolSelect, Bool.false_eq_true, if_false]
      rw [ih]
      simp only [Nat.mod_add_mod]
    | true =>
      have hx : contrib x = 0 := h x (by simp) hsel
      simp only [boolSelect, if_true]
      rw [ih]
      simp only [Nat.mod_add_mod, hx, Nat.add_zero]

/-- A record selected by a photon pattern with `1 ≤ channel ≤ 64` is not
an overflow record, so it carries no overflow payload of its own. -/
lemma photon_sel_contrib_zero (channel r : Nat) (h1 : 1 ≤ channel)
    (h64 : channel ≤ 64)
    (hsel : selRecord (((channel : Int) - 1) * 2 ^ 25) r = true) :
    contribT2 r = 0 ∧ contribT3 r = 0 := by
  simp only [selRecord, decide_eq_true_eq, headerBits] at hsel
  have h127 : r / 2 ^ 25 % 2 ^ 7 ≠ 127 := by
    intro h127
    rw [h127] at hsel
    push_cast at hsel
    omega
  have hne : headerBits r ≠ bitOverflow := by
    simp only [headerBits, bitOverflow]
    intro hEq
    apply h127
    norm_num at hEq
    omega
  exact ⟨by simp [contribT2, hne], by simp [contribT3, hne]⟩

/-- C3 (amended): the decoders accumulate overflow payloads in a numpy
`uint32` cumulative sum, so every count is reduced `% 2^32`: for every
nonempty buffer and photon query on channel `1 ≤ c ≤ 64`, the overflow
count attached to each matching record at position `p` is the sum of the
overflow payloads strictly before `p` modulo `2^32` (a matching photon
record is never an overflow record, so at-or-before equals strictly
before), the matched low-order fields are returned unchanged, and the
total overflow delta is the sum of all payloads modulo `2^32` — in both
T2 and T3 modes. -/
theorem c3_overflow_counts_are_mod32_prefix_sums (buf : List Nat)
    (channel : Nat) (hne : buf ≠ []) (h1 : 1 ≤ channel)
    (h64 : channel ≤ 64) :
    readT2buffer buf channel .photon = .ok
      (boolSelect (strictPriorSums contribT2 buf)
         (buf.map (selRecord (((channel : Int) - 1) * 2 ^ 25))),
       boolSelect (buf.map timetagT2)
         (buf.map (selRecord (((channel : Int) - 1) * 2 ^ 25))),
       ((buf.map contribT2).sum) % U32) ∧
    readT3buffer buf channel .photon = .ok
      (boolSelect (strictPriorSums contribT3 buf)
         (buf.map (selRecord (((channel : Int) - 1) * 2 ^ 25))),
       boolSelect (buf.map dtimeT3)
         (buf.map (selRecord (((channel : Int) - 1) * 2 ^ 25))),
       boolSelect (buf.map nsyncT3)
         (buf.map (selRecord (((channel : Int) - 1) * 2 ^ 25))),
       ((buf.map contribT3).sum) % U32) := by
  have hb2 := boolSelect_strict contribT2
    (selRecord (((channel : Int) - 1) * 2 ^ 25)) buf 0
    (fun r _ hs => (photon_sel_contrib_zero channel r h1 h64 hs).1)
  have hb3 := boolSelect_strict contribT3
    (selRecord (((channel : Int) - 1) * 2 ^ 25)) buf 0
    (fun r _ hs => (photon_sel_contrib_zero channel r h1 h64 hs).2)
  constructor
  · simp only [readT2buffer, bitSelectedT2,
      cumsum32_getLast (buf.map contribT2) 0 (by simp [hne]), hb2]
    simp [strictPriorSums]
  · simp only [readT3buffer, bitSelectedT3, bind, Except.bind,
      cumsum32_getLast (buf.map contribT3) 0 (by simp [hne]), hb3]
    simp [strictPriorSums]

/-- C3 witness: buffer `[0xFFFFFFFF, 0]` (one maximal T2 overflow record,
then a channel-1 photon at timetag 0). -/
theorem c3_overflow_counts_are_mod32_prefix_sums_witness :
    ([0xFFFFFFFF, 0] : List Nat) ≠ [] ∧ 1 ≤ 1 ∧ (1 : Nat) ≤ 64 ∧
    (readT2buffer [0xFFFFFFFF, 0] 1 .photon = .ok
       (boolSelect (strictPriorSums contribT2 [0xFFFFFFFF, 0])
          ([0xFFFFFFFF, 0].map (selRecord ((((1 : Nat) : Int) - 1) * 2 ^ 25))),
        boolSelect ([0xFFFFFFFF, 0].map timetagT2)
          ([0xFFFFFFFF, 0].map (selRecord ((((1 : Nat) : Int) - 1) * 2 ^ 25))),
        (([0xFFFFFFFF, 0].map contribT2).sum) % U32) ∧
     readT3buffer [0xFFFFFFFF, 0] 1 .photon = .ok
       (boolSelect (strictPriorSums contribT3 [0xFFFFFFFF, 0])
          ([0xFFFFFFFF, 0].map (selRecord ((((1 : Nat) : Int) - 1) * 2 ^ 25))),
        boolSelect ([0xFFFFFFFF, 0].map dtimeT3)
          ([0xFFFFFFFF, 0].map (selRecord ((((1 : Nat) : Int) - 1) * 2 ^ 25))),
        boolSelect ([0xFFFFFFFF, 0].map nsyncT3)
          ([0xFFFFFFFF, 0].map (selRecord ((((1 : Nat) : Int) - 1) * 2 ^ 25))),
        (([0xFFFFFFFF, 0].map contribT3).sum) % U32)) :=
  ⟨by decide, by decide, by decide,
   c3_overflow_counts_are_mod32_prefix_sums [0xFFFFFFFF, 0] 1
     (by decide) (by decide) (by decide)⟩

/-- C3 counterexample: the claim states the attached overflow count and
the total equal the plain (unreduced) sum of the payloads.  A T2 buffer
of 129 maximal overflow records (payload `0x1FFFFFF` each) followed by a
channel-1 photon makes the `uint32` accumulator wrap: the decoder attaches
`129 * 0x1FFFFFF % 2^32 = 33554303`, not the true sum
`129 * 0x1FFFFFF = 4328521599`. -/
theorem c3_uint32_cumsum_wraps :
    readT2buffer (List.replicate 129 0xFFFFFFFF ++ [0x00000000]) 1 .photon =
      .ok ([129 * 0x1FFFFFF % 2 ^ 32], [0], 129 * 0x1FFFFFF % 2 ^ 32) ∧
    129 * 0x1FFFFFF % 2 ^ 32 ≠ 129 * 0x1FFFFFF :=
  ⟨by rfl, by decide⟩

end Th260
